import Mathlib

/-!
Verification development for the Product-Importer repository.

Shallow embedding of `app/tasks.py` (CSV import pipeline, batch upsert,
webhook dispatch) and `app/main.py` (product CRUD handlers, route table),
with the data model of `app/models.py`.

Modelling conventions:
* The product table is a list of rows plus an id counter; SQLAlchemy
  queries with `.first()` become first-match searches over that list.
* `func.lower` / `str.lower` on SKUs becomes `String.toLower` (SKUs are
  ASCII identifiers in this application).
* Python `str.strip()` becomes `pyStrip` (drop leading/trailing whitespace).
* `csv.DictReader` is modelled at the record level: a header list plus a
  list of cell lists.  `dict(zip(fieldnames, row))` keeps the value at the
  last occurrence of a duplicated header; a row shorter than the header
  list yields `None` (`restval`) for the trailing keys, modelled as
  `Option.none`; fully blank rows are skipped by `DictReader`.
* Transient storage failures are injected through an explicit per-attempt
  failure schedule, since the Python code observes them only as exceptions.
  SQLAlchemy's exception hierarchy makes `IntegrityError` (uniqueness
  violations) a sibling of `OperationalError`, not a subclass, so only
  `OperationalError` reaches the retry branch of `upsert_products_batch`.
* Side effects other than table mutation (webhook dispatch, Celery
  progress publication) are recorded in an explicit effect trace.
* Python's calling convention is modelled for `trigger_webhooks`: the
  function declares exactly two positional parameters, and a call with a
  different argument count raises `TypeError` before the body runs.
* `app/database.py` is not part of the sources; the session it produces is
  modelled with the library defaults the rest of the code relies on
  (autoflush on, so pending inserts are visible to later lookups in the
  same batch; attribute values remain readable after commit).
* Timestamps (`created_at`/`updated_at`) are server-assigned and never read
  by the modelled code paths; they are omitted from the row model.
-/

namespace ProductImporter

/-- Python `str.strip()` with no argument: remove leading and trailing
whitespace. -/
def pyStrip (s : String) : String :=
  String.mk (((s.toList.dropWhile Char.isWhitespace).reverse.dropWhile
    Char.isWhitespace).reverse)

/-- Case-folding used for SKU comparison: `func.lower(Product.sku)` in SQL
and `str.lower()` in Python, identical on the ASCII SKUs this app handles
(lower-case each character). -/
def skuFold (s : String) : String :=
  String.mk (s.toList.map Char.toLower)

/-- A normalized candidate tuple produced by the row normalizer in
`process_csv_upload` (lines 39-43 of `tasks.py`): exactly the three string
fields the code puts into a batch entry.  There is no price field: the row
loop of the importer never reads a price column. -/
structure Tuple where
  sku : String
  name : String
  description : String
deriving Repr, DecidableEq

/-- One row of the `products` table (`app/models.py`).  `description` and
`price` are nullable columns. -/
structure ProductRow where
  id : Nat
  sku : String
  name : String
  description : Option String
  price : Option ℚ
  is_active : Bool
deriving Repr, DecidableEq

/-- The product table: rows in insertion order plus the id sequence. -/
structure Db where
  rows : List ProductRow
  nextId : Nat
deriving Repr, DecidableEq

/-- External side effects performed by the modelled code: a Celery
`update_state` progress publication, or a webhook dispatch for an event
type.  (`publishProgress` is required to state what the orchestrator
publishes; the source of `process_csv_upload` contains no `update_state`
call, so the constructor is never produced by the embedded code.) -/
inductive Effect where
  | publishProgress (processed total : Nat)
  | webhook (eventType : String)
deriving Repr, DecidableEq

/-- The storage-error taxonomy the `except` clauses of
`upsert_products_batch` discriminate on: `sqlalchemy.exc.OperationalError`
(transient connectivity) versus an `IntegrityError` (uniqueness violation).
In SQLAlchemy both are direct subclasses of `DBAPIError`; `IntegrityError`
is not an `OperationalError`. -/
inductive DbError where
  | operational
  | integrity
deriving Repr, DecidableEq

/-- `isinstance(e, OperationalError)`: only the `operational` kind is caught
by the retry branch (line 120 of `tasks.py`); everything else falls to the
generic `except Exception` branch (line 130). -/
def isOperationalError : DbError → Bool
  | .operational => true
  | .integrity => false

/-- Failure injected into one attempt of `upsert_products_batch`: the
attempt raises `error` after `afterTuples` tuples of the batch have been
processed (their counter increments already executed); `afterTuples =
batch.length` corresponds to a failure at `db.commit()`. -/
structure AttemptFailure where
  afterTuples : Nat
  error : DbError
deriving Repr, DecidableEq

/-- The field overwrite performed on an existing product by the update arm
of `upsert_products_batch` (lines 100-105 of `tasks.py`): `name`,
`description` and `is_active` are written; `sku`, `id` and `price` are not
touched. -/
def applyUpd (r : ProductRow) (t : Tuple) : ProductRow :=
  { r with name := t.name, description := some t.description, is_active := true }

/-- The fresh row built by the insert arm of `upsert_products_batch`
(lines 107-114 of `tasks.py`): `price` is not among the constructor
arguments, so the column keeps its NULL default. -/
def newRow (id : Nat) (t : Tuple) : ProductRow :=
  { id := id, sku := t.sku, name := t.name, description := some t.description,
    price := none, is_active := true }

/-- `db.query(Product).filter(func.lower(Product.sku) ==
func.lower(sku)).first()` followed by the in-place mutation of the update
arm: rewrite the first row whose case-folded SKU matches, or report `none`
when no row matches. -/
def updateFirst (rows : List ProductRow) (t : Tuple) : Option (List ProductRow) :=
  match rows with
  | [] => none
  | r :: rs =>
    if skuFold r.sku = skuFold t.sku then
      some (applyUpd r t :: rs)
    else
      (updateFirst rs t).map (r :: ·)

/-- Processing of a single tuple inside the batch loop of
`upsert_products_batch`: case-insensitive lookup, then update in place or
append a fresh row.  Returns the new table and whether the create arm ran.
Pending inserts are visible to later lookups in the same batch (session
autoflush). -/
def upsertOne (db : Db) (t : Tuple) : Db × Bool :=
  match updateFirst db.rows t with
  | some rows' => ({ db with rows := rows' }, false)
  | none => (⟨db.rows ++ [newRow db.nextId t], db.nextId + 1⟩, true)

/-- The batch loop of `upsert_products_batch` over a list of tuples, with
the `created`/`updated` counters threaded exactly as the Python locals
are. -/
def stepTuples (db : Db) (ts : List Tuple) (created updated : Nat) :
    Db × Nat × Nat :=
  match ts with
  | [] => (db, created, updated)
  | t :: rest =>
    match upsertOne db t with
    | (db', true) => stepTuples db' rest (created + 1) updated
    | (db', false) => stepTuples db' rest created (updated + 1)

/-- The retry loop of `upsert_products_batch` (lines 91-137 of `tasks.py`).
`sched` injects at most one failure per attempt; a missing entry means the
attempt succeeds.  The counters are the function-level locals initialised
once before the loop (lines 88-89), so increments made by a failed attempt
survive into the next attempt.  A failed attempt rolls the table back but
keeps the counters; an `OperationalError` on the last attempt, any other
exception, and the fall-through after the loop all return zero counts
(lines 129, 133 and 137). -/
def upsertAttempts (db : Db) (batch : List Tuple)
    (sched : List (Option AttemptFailure)) (retriesLeft created updated : Nat) :
    Db × Nat × Nat :=
  match retriesLeft with
  | 0 => (db, 0, 0)
  | r + 1 =>
    match sched with
    | some f :: rest =>
      let run := stepTuples db (batch.take f.afterTuples) created updated
      if isOperationalError f.error then
        if r = 0 then (db, 0, 0)
        else upsertAttempts db batch rest r run.2.1 run.2.2
      else (db, 0, 0)
    | _ => stepTuples db batch created updated

/-- `upsert_products_batch(batch, max_retries=3)` with an explicit failure
schedule; `sched = []` is a run with no storage failures. -/
def upsert_products_batch (db : Db) (batch : List Tuple)
    (sched : List (Option AttemptFailure)) : Db × Nat × Nat :=
  upsertAttempts db batch sched 3 0 0

/-- A parsed CSV document: the header row and the data records.  The
character-level parsing done by the `csv` module (delimiters, quoting) is
below the granularity any claim distinguishes and is not modelled. -/
structure Csv where
  headers : List String
  rows : List (List String)
deriving Repr, DecidableEq

/-- Index of the last occurrence of `key` among the headers: in
`dict(zip(fieldnames, row))` a later duplicate header overwrites an earlier
one. -/
def lastIdx (headers : List String) (key : String) : Option Nat :=
  match headers with
  | [] => none
  | h :: t =>
    match lastIdx t key with
    | some i => some (i + 1)
    | none => if h = key then some 0 else none

/-- `row.get(key, '')` on a `DictReader` record: an absent header yields the
default `''`; a header whose index is beyond the end of a short row was
filled with `restval = None`, modelled as `none`. -/
def rowGet (headers cells : List String) (key : String) : Option String :=
  match lastIdx headers key with
  | none => some ""
  | some i => cells[i]?

/-- Outcome of normalizing one record (lines 31-43 of `tasks.py`): the row
crashes the job (`None.strip()` raises `AttributeError`, caught only by the
outer `except`), is skipped (`not sku or not name`), or yields a tuple. -/
inductive RowResult where
  | crash
  | skip
  | tuple (t : Tuple)
deriving Repr, DecidableEq

/-- The row normalizer: exact-key lookups of `sku`, `name`, `description`
with `''` defaults, value-level `strip()`, and the emptiness check. -/
def normalizeRow (headers cells : List String) : RowResult :=
  match rowGet headers cells "sku", rowGet headers cells "name",
      rowGet headers cells "description" with
  | some s, some n, some d =>
    let sku := pyStrip s
    let nm := pyStrip n
    let ds := pyStrip d
    if sku = "" || nm = "" then .skip else .tuple ⟨sku, nm, ds⟩
  | _, _, _ => .crash

/-- `csv.DictReader` silently skips fully blank records. -/
def dataRows (csv : Csv) : List (List String) :=
  csv.rows.filter (fun r => !r.isEmpty)

/-- The number of positional parameters in the definition
`def trigger_webhooks(event_type, data)` of `tasks.py`. -/
def trigger_webhooks_paramCount : Nat := 2

/-- The `TypeError` message Python raises for a call of the two-parameter
`trigger_webhooks` with a different number of positional arguments. -/
def arityMsg (args : Nat) : String :=
  "TypeError: trigger_webhooks takes 2 positional arguments but "
    ++ toString args ++ " were given"

/-- A Python call of `trigger_webhooks` with `args` positional arguments:
an arity mismatch raises `TypeError` before the body runs; a well-formed
call performs the best-effort dispatch (which never raises back to its
caller) and is recorded as a webhook effect for the event type. -/
def callTriggerWebhooks (args : Nat) (eventType : String) :
    Except String (List Effect) :=
  if args = trigger_webhooks_paramCount then .ok [.webhook eventType]
  else .error (arityMsg args)

/-- The success message assembled by `process_csv_upload`. -/
def importMsg (p c u : Nat) : String :=
  "Successfully processed " ++ toString p ++ " products (" ++ toString c
    ++ " created, " ++ toString u ++ " updated)"

/-- The terminal dictionary returned by `process_csv_upload`.  The `Failed`
dictionary of the source carries no `created`/`updated` keys; the model
reports them as 0 alongside its `total: 0`. -/
structure ImportResult where
  status : String
  message : String
  total : Nat
  created : Nat
  updated : Nat
deriving Repr, DecidableEq

/-- The row loop of `process_csv_upload` (lines 31-61 of `tasks.py`):
normalize each record, accumulate valid tuples into a batch, flush through
`upsert_products_batch` when the batch reaches `batch_size = 50`, flush the
remainder at the end.  `none` in the second component is the
`AttributeError` escaping the loop; batches flushed before the crash stay
committed. -/
def importLoop (headers : List String) (db : Db) (rows : List (List String))
    (processed created updated : Nat) (batch : List Tuple) :
    Db × Option (Nat × Nat × Nat) :=
  match rows with
  | [] =>
    if batch.isEmpty then (db, some (processed, created, updated))
    else
      let r := upsert_products_batch db batch []
      (r.1, some (processed + batch.length, created + r.2.1, updated + r.2.2))
  | cells :: rest =>
    match normalizeRow headers cells with
    | .crash => (db, none)
    | .skip => importLoop headers db rest processed created updated batch
    | .tuple t =>
      let batch' := batch ++ [t]
      if batch'.length ≥ 50 then
        let r := upsert_products_batch db batch' []
        importLoop headers r.1 rest (processed + batch'.length)
          (created + r.2.1) (updated + r.2.2) []
      else
        importLoop headers db rest processed created updated batch'

/-- `process_csv_upload(csv_content)` with no storage failures: run the row
loop, then dispatch the `product.imported` webhook (a two-argument call, so
it executes) and build the terminal dictionary; any exception out of the
loop is converted to the `Failed` dictionary by the outer `except`.  The
effect trace lists the external effects the function performs: the source
contains no Celery `update_state` call, so no `publishProgress` effect is
ever emitted. -/
def process_csv_upload (db : Db) (csv : Csv) : Db × ImportResult × List Effect :=
  match importLoop csv.headers db (dataRows csv) 0 0 0 [] with
  | (db', some (p, c, u)) =>
    match callTriggerWebhooks 2 "product.imported" with
    | .ok effs => (db', ⟨"Complete", importMsg p c u, p, c, u⟩, effs)
    | .error e => (db', ⟨"Failed", "Error: " ++ e, 0, 0, 0⟩, [])
  | (db', none) =>
    (db', ⟨"Failed", "Error: NoneType object has no attribute strip", 0, 0, 0⟩, [])

/-- The progress snapshots contained in an effect trace. -/
def publishedSnapshots (effs : List Effect) : List Effect :=
  effs.filter (fun e => match e with
    | .publishProgress _ _ => true
    | _ => false)

/-- All records normalize to valid tuples (no skip, no crash); returns the
tuples in order. -/
def validTuples (headers : List String) (rows : List (List String)) :
    Option (List Tuple) :=
  match rows with
  | [] => some []
  | r :: rest =>
    match normalizeRow headers r with
    | .tuple t => (validTuples headers rest).map (t :: ·)
    | _ => none

/-- Whether a record is rejected by normalization (missing/empty sku or
name). -/
def isSkip : RowResult → Bool
  | .skip => true
  | _ => false

/-- The number of records of a CSV rejected by normalization. -/
def skippedRows (csv : Csv) : Nat :=
  ((dataRows csv).filter (fun r => isSkip (normalizeRow csv.headers r))).length

/-- A product payload as the CRUD handlers receive it after pydantic
parsing (`ProductCreate` / `ProductUpdate` of `app/schemas.py`), with every
field supplied; `update_product` pushes every field of `product.dict()`
into the row. -/
structure ProductIn where
  sku : String
  name : String
  description : Option String
  price : Option ℚ
  is_active : Bool
deriving Repr, DecidableEq

/-- What an HTTP handler hands back to the framework: a product body, a
plain message body, an `HTTPException`, or an uncaught Python exception
(which the framework surfaces to the caller as a server error). -/
inductive Response where
  | ok (row : ProductRow)
  | okMsg (msg : String)
  | httpError (code : Nat) (detail : String)
  | exn (msg : String)
deriving Repr, DecidableEq

/-- The duplicate-SKU lookup of `create_product` (lines 557-559 of
`main.py`). -/
def findBySku (rows : List ProductRow) (sku : String) : Option ProductRow :=
  rows.find? (fun r => skuFold r.sku == skuFold sku)

/-- `POST /api/products` (`create_product`, lines 554-571 of `main.py`):
reject a duplicate case-folded SKU, otherwise insert and commit, then call
`trigger_webhooks(db, 'product.created', ...)` — three arguments to a
two-parameter function, raising after the commit. -/
def create_product (db : Db) (p : ProductIn) : Db × Response × List Effect :=
  match findBySku db.rows p.sku with
  | some _ => (db, .httpError 400 "SKU already exists", [])
  | none =>
    let row : ProductRow :=
      ⟨db.nextId, p.sku, p.name, p.description, p.price, p.is_active⟩
    let db' : Db := ⟨db.rows ++ [row], db.nextId + 1⟩
    match callTriggerWebhooks 3 "product.created" with
    | .ok effs => (db', .ok row, effs)
    | .error e => (db', .exn e, [])

/-- The `setattr` loop of `update_product`: every field of the request body
is written into the row. -/
def applyCrudUpdate (r : ProductRow) (p : ProductIn) : ProductRow :=
  { r with
    sku := p.sku
    name := p.name
    description := p.description
    price := p.price
    is_active := p.is_active }

/-- `PUT /api/products/{product_id}` (`update_product`, lines 573-600 of
`main.py`): 404 when the id is absent; when the case-folded SKU changes,
reject a collision with another row; otherwise write all fields, commit,
and make the same three-argument `trigger_webhooks` call, raising after the
commit. -/
def update_product (db : Db) (pid : Nat) (p : ProductIn) :
    Db × Response × List Effect :=
  match db.rows.find? (fun r => r.id == pid) with
  | none => (db, .httpError 404 "Product not found", [])
  | some r =>
    if skuFold p.sku != skuFold r.sku &&
        (db.rows.find? (fun r2 =>
          skuFold r2.sku == skuFold p.sku && r2.id != pid)).isSome then
      (db, .httpError 400 "SKU already exists", [])
    else
      let r' := applyCrudUpdate r p
      let db' : Db := ⟨db.rows.map (fun r2 => if r2.id = pid then r' else r2),
        db.nextId⟩
      match callTriggerWebhooks 3 "product.updated" with
      | .ok effs => (db', .ok r', effs)
      | .error e => (db', .exn e, [])

/-- `DELETE /api/products/{product_id}` (`delete_product`, lines 602-614 of
`main.py`): 404 when absent; otherwise delete and commit, then the same
three-argument `trigger_webhooks` call, raising after the commit. -/
def delete_product (db : Db) (pid : Nat) : Db × Response × List Effect :=
  match db.rows.find? (fun r => r.id == pid) with
  | none => (db, .httpError 404 "Product not found", [])
  | some _ =>
    let db' : Db := ⟨db.rows.filter (fun r2 => r2.id != pid), db.nextId⟩
    match callTriggerWebhooks 3 "product.deleted" with
    | .ok effs => (db', .okMsg "Product deleted", effs)
    | .error e => (db', .exn e, [])

/-- The message built by `bulk_delete_products`. -/
def bulkMsg (n : Nat) : String :=
  "Deleted " ++ toString n ++ " products"

/-- `DELETE /api/products/bulk-delete` (`bulk_delete_products`, lines
616-623 of `main.py`): count the rows, delete them all, commit, report the
count; the handler contains no `trigger_webhooks` call, so its effect trace
is empty. -/
def bulk_delete_products (db : Db) : Db × Response × List Effect :=
  let count := db.rows.length
  (⟨[], db.nextId⟩, .okMsg (bulkMsg count), [])

/-- `POST /api/webhooks/{webhook_id}/test` (`test_webhook`, lines 650-669 of
`main.py`): when the webhook exists, one live POST is made whose payload
event field is the literal string `test`. -/
def test_webhook (db : Db) (webhookExists : Bool) : Db × Response × List Effect :=
  if webhookExists then (db, .okMsg "Webhook tested", [.webhook "test"])
  else (db, .httpError 404 "Webhook not found", [])

/-- One segment of a route pattern.  Starlette compiles `{name}` to the
regular expression `[^/]+` regardless of the declared parameter type, so a
path parameter segment matches any non-empty path segment; type conversion
(e.g. `int`) happens only after the route has been selected. -/
inductive Seg where
  | lit (s : String)
  | param
deriving Repr, DecidableEq

/-- Whether a pattern segment matches a concrete path segment. -/
def segMatch : Seg → String → Bool
  | .lit s, x => s == x
  | .param, _ => true

/-- Whether a full pattern matches a full path. -/
def pathMatch : List Seg → List String → Bool
  | [], [] => true
  | a :: ps, x :: xs => segMatch a x && pathMatch ps xs
  | _, _ => false

/-- One registered route: HTTP method, path pattern, handler name. -/
structure Route where
  method : String
  pattern : List Seg
  handler : String
deriving Repr, DecidableEq

/-- The routes of `app/main.py` in declaration order.  The parameterized
`DELETE /api/products/{product_id}` (line 602) precedes
`DELETE /api/products/bulk-delete` (line 616). -/
def routeTable : List Route := [
  ⟨"GET", [], "read_root"⟩,
  ⟨"POST", [.lit "api", .lit "upload"], "upload_csv"⟩,
  ⟨"GET", [.lit "api", .lit "upload", .lit "status", .param], "upload_status"⟩,
  ⟨"GET", [.lit "api", .lit "products"], "get_products"⟩,
  ⟨"GET", [.lit "api", .lit "products", .param], "get_product"⟩,
  ⟨"POST", [.lit "api", .lit "products"], "create_product"⟩,
  ⟨"PUT", [.lit "api", .lit "products", .param], "update_product"⟩,
  ⟨"DELETE", [.lit "api", .lit "products", .param], "delete_product"⟩,
  ⟨"DELETE", [.lit "api", .lit "products", .lit "bulk-delete"], "bulk_delete_products"⟩,
  ⟨"GET", [.lit "api", .lit "webhooks"], "get_webhooks"⟩,
  ⟨"POST", [.lit "api", .lit "webhooks"], "create_webhook"⟩,
  ⟨"DELETE", [.lit "api", .lit "webhooks", .param], "delete_webhook"⟩,
  ⟨"POST", [.lit "api", .lit "webhooks", .param, .lit "test"], "test_webhook"⟩]

/-- Starlette routing: the first route in declaration order whose pattern
matches the path (and whose method matches) handles the request. -/
def matchRoute (method : String) (path : List String) : Option String :=
  (routeTable.find? (fun r => r.method == method && pathMatch r.pattern path)).map
    (fun r => r.handler)

/-- Conversion of a captured path segment to the declared `int` parameter
type: it succeeds exactly on non-empty all-digit segments. -/
def parseNatSeg (s : String) : Option Nat :=
  if !s.toList.isEmpty && s.toList.all Char.isDigit then
    some (s.toList.foldl (fun n c => n * 10 + (c.toNat - 48)) 0)
  else none

/-- Dispatch of a DELETE request under `/api/products`: when routing selects
`delete_product`, FastAPI validates the captured segment against the
declared `int` parameter and rejects the request with 422 when it is not an
integer, without falling through to later routes. -/
def dispatchDelete (db : Db) (path : List String) : Db × Response × List Effect :=
  match matchRoute "DELETE" path with
  | some "delete_product" =>
    match path with
    | [_, _, seg] =>
      match parseNatSeg seg with
      | some pid => delete_product db pid
      | none => (db, .httpError 422 "Unprocessable Entity", [])
    | _ => (db, .httpError 404 "Not Found", [])
  | some "bulk_delete_products" => bulk_delete_products db
  | _ => (db, .httpError 404 "Not Found", [])

/-- A tuple is settled in a table when re-upserting it rewrites the first
matching row with the values it already holds, leaving the table
unchanged. -/
def Settled (rows : List ProductRow) (t : Tuple) : Prop :=
  updateFirst rows t = some rows

/-!  Helper lemmas about the batch loop. -/

/-- Each tuple of a batch increments exactly one of the two counters, so one
pass over a batch adds the batch length to their sum. -/
theorem stepTuples_sum (ts : List Tuple) : ∀ (db : Db) (c u : Nat),
    (stepTuples db ts c u).2.1 + (stepTuples db ts c u).2.2 = c + u + ts.length := by
  induction ts with
  | nil => intro db c u; simp [stepTuples]
  | cons t rest ih =>
    intro db c u
    rcases h : upsertOne db t with ⟨db', b⟩
    cases b <;> simp [stepTuples, h, ih] <;> omega

/-- With no storage failures, `upsert_products_batch` is one successful pass
over the batch with counters starting at zero. -/
theorem upsert_noFail (db : Db) (batch : List Tuple) :
    upsert_products_batch db batch [] = stepTuples db batch 0 0 := rfl

/-- Invariant of the row loop: the processed count always equals the sum of
the created and updated counters, because every flushed batch contributes
its full length to each side. -/
theorem importLoop_reconcile (headers : List String) :
    ∀ (rows : List (List String)) (db : Db) (p c u : Nat) (batch : List Tuple)
      (db' : Db) (p' c' u' : Nat), p = c + u →
    importLoop headers db rows p c u batch = (db', some (p', c', u')) →
    p' = c' + u' := by
  intro rows
  induction rows with
  | nil =>
    intro db p c u batch db' p' c' u' hpcu h
    by_cases hb : batch.isEmpty
    · simp only [importLoop, hb, if_pos] at h
      rcases h with ⟨rfl, rfl, rfl, rfl⟩
      exact hpcu
    · simp only [importLoop, hb, if_neg, if_false] at h
      rcases h with ⟨rfl, rfl, rfl, rfl⟩
      have := stepTuples_sum batch db 0 0
      rw [upsert_noFail]
      omega
  | cons cells rest ih =>
    intro db p c u batch db' p' c' u' hpcu h
    rcases hn : normalizeRow headers cells with _ | _ | t
    · simp only [importLoop, hn, Prod.mk.injEq] at h
      exact absurd h.2 (by simp)
    · simp only [importLoop, hn] at h
      exact ih db p c u batch db' p' c' u' hpcu h
    · simp only [importLoop, hn] at h
      by_cases hlen : (batch ++ [t]).length ≥ 50
      · simp only [hlen, if_pos] at h
        refine ih _ _ _ _ _ db' p' c' u' ?_ h
        have := stepTuples_sum (batch ++ [t]) db 0 0
        rw [upsert_noFail]
        simp only [List.length_append, List.length_cons, List.length_nil] at *
        omega
      · simp only [hlen, if_neg, if_false] at h
        exact ih db p c u (batch ++ [t]) db' p' c' u' hpcu h

/-- The effect trace of one import run is either the single
`product.imported` dispatch or, on the failure path, empty. -/
theorem process_effects_cases (db : Db) (csv : Csv) :
    (process_csv_upload db csv).2.2 = [Effect.webhook "product.imported"] ∨
    (process_csv_upload db csv).2.2 = [] := by
  rcases h : importLoop csv.headers db (dataRows csv) 0 0 0 [] with ⟨db', _ | ⟨p, c, u⟩⟩
  · right
    simp [process_csv_upload, h]
  · left
    simp [process_csv_upload, h, callTriggerWebhooks, trigger_webhooks_paramCount]

/-!  Claim theorems. -/

/-- C2: the import orchestrator publishes no progress snapshot at all: the
effect trace of `process_csv_upload` contains no `publishProgress` effect
for any input, so no `ImportJobStatus` snapshot is published after any
batch flush and a poller sees only the pending sentinel until the terminal
result. -/
theorem c2_no_progress_published (db : Db) (csv : Csv) :
    publishedSnapshots (process_csv_upload db csv).2.2 = [] := by
  rcases process_effects_cases db csv with h | h <;>
    simp [publishedSnapshots, h]

/-- C4 (counterexample): for the CSV `sku,name` / `a1,x` / `,y` the second
row is rejected by normalization (empty sku), yet the terminal result
reports `total = 1 = created + updated`, so the claimed reconciliation
`total = created + updated + skipped` fails (1 ≠ 1 + 0 + 1): the rejected
row is absent from the accounting. -/
theorem c4_counterexample :
    (process_csv_upload ⟨[], 0⟩ ⟨["sku", "name"], [["a1", "x"], ["", "y"]]⟩).2.1.total = 1 ∧
    (process_csv_upload ⟨[], 0⟩ ⟨["sku", "name"], [["a1", "x"], ["", "y"]]⟩).2.1.created = 1 ∧
    (process_csv_upload ⟨[], 0⟩ ⟨["sku", "name"], [["a1", "x"], ["", "y"]]⟩).2.1.updated = 0 ∧
    skippedRows ⟨["sku", "name"], [["a1", "x"], ["", "y"]]⟩ = 1 ∧
    (process_csv_upload ⟨[], 0⟩ ⟨["sku", "name"], [["a1", "x"], ["", "y"]]⟩).2.1.total ≠
      (process_csv_upload ⟨[], 0⟩ ⟨["sku", "name"], [["a1", "x"], ["", "y"]]⟩).2.1.created +
      (process_csv_upload ⟨[], 0⟩ ⟨["sku", "name"], [["a1", "x"], ["", "y"]]⟩).2.1.updated +
      skippedRows ⟨["sku", "name"], [["a1", "x"], ["", "y"]]⟩ := by
  decide

/-- C4 (amended): the terminal result reconciles as `total = created +
updated` for every CSV input with no storage failures; rows rejected by
normalization are excluded from every reported count (there is no skipped
tally in the result). -/
theorem c4_amended (db : Db) (csv : Csv) :
    (process_csv_upload db csv).2.1.total =
      (process_csv_upload db csv).2.1.created +
        (process_csv_upload db csv).2.1.updated := by
  rcases h : importLoop csv.headers db (dataRows csv) 0 0 0 [] with ⟨db', _ | ⟨p, c, u⟩⟩
  · simp [process_csv_upload, h]
  · have hrec := importLoop_reconcile csv.headers (dataRows csv) db 0 0 0 []
      db' p c u rfl h
    simp [process_csv_upload, h, callTriggerWebhooks, trigger_webhooks_paramCount, hrec]

/-- C1: the `created`/`updated` counters of `upsert_products_batch` live
outside the retry loop, so increments made by a failed attempt survive into
the successful one.  For the one-tuple batch `a1` on an empty table, one
`OperationalError` at commit followed by a successful attempt commits the
run but returns `created = 2, updated = 0`, although the batch has length 1
and contains a single tuple whose case-folded SKU matched nothing; with no
failed attempt the same batch returns `created = 1`, so the tallies do
depend on the failed attempts. -/
theorem c1_counter_eval :
    (upsert_products_batch ⟨[], 0⟩ [⟨"a1", "n", ""⟩]
        [some ⟨1, DbError.operational⟩]).2 = (2, 0) ∧
    (upsert_products_batch ⟨[], 0⟩ [⟨"a1", "n", ""⟩] []).2 = (1, 0) ∧
    [(⟨"a1", "n", ""⟩ : Tuple)].length = 1 := by
  decide

/-- C5 (counterexample): importing the single row `a1,x` under the headers
` SKU `,`Name` yields a different terminal result and a different product
table than importing it under the canonical headers `sku`,`name`: the
lookups `row.get('sku', '')` are exact, so the whitespace/case variant
recognizes no column and skips the row. -/
theorem c5_counterexample :
    (process_csv_upload ⟨[], 0⟩ ⟨[" SKU ", "Name"], [["a1", "x"]]⟩).2.1 ≠
      (process_csv_upload ⟨[], 0⟩ ⟨["sku", "name"], [["a1", "x"]]⟩).2.1 ∧
    (process_csv_upload ⟨[], 0⟩ ⟨[" SKU ", "Name"], [["a1", "x"]]⟩).1 ≠
      (process_csv_upload ⟨[], 0⟩ ⟨["sku", "name"], [["a1", "x"]]⟩).1 := by
  decide

/-- Under the headers ` SKU `,`Name` every record normalizes to a
rejection: neither exact key `sku` nor `name` is present, so both lookups
return the `''` default. -/
theorem normalizeRow_wsHeaders_skip (cells : List String) :
    normalizeRow [" SKU ", "Name"] cells = .skip := rfl

/-- A row loop in which every record is rejected flushes nothing and
returns the counters unchanged. -/
theorem importLoop_allSkip (headers : List String)
    (hskip : ∀ cells, normalizeRow headers cells = .skip) :
    ∀ (rows : List (List String)) (db : Db) (p c u : Nat),
    importLoop headers db rows p c u [] = (db, some (p, c, u)) := by
  intro rows
  induction rows with
  | nil => intro db p c u; simp [importLoop]
  | cons cells rest ih =>
    intro db p c u
    simp only [importLoop, hskip cells]
    exact ih db p c u

/-- C5 (amended): header matching is exact.  Importing any data rows under
the headers ` SKU `,`Name` treats every row as missing `sku`/`name`: all
rows are skipped, the terminal result is `Complete` with all counts 0, and
the product table is unchanged — unlike the canonical-header import of the
same rows. -/
theorem c5_amended (db : Db) (rows : List (List String)) :
    process_csv_upload db ⟨[" SKU ", "Name"], rows⟩ =
      (db, ⟨"Complete", importMsg 0 0 0, 0, 0, 0⟩,
        [Effect.webhook "product.imported"]) := by
  have h := importLoop_allSkip [" SKU ", "Name"]
    (fun cells => normalizeRow_wsHeaders_skip cells)
    (dataRows ⟨[" SKU ", "Name"], rows⟩) db 0 0 0
  simp [process_csv_upload, h, callTriggerWebhooks, trigger_webhooks_paramCount]

/-- C6 (counterexample): the table holds `a1` with price 5; importing the
row `A1,New,9` (headers `sku,name,price`) matches it case-insensitively and
rewrites name/description/is_active, but the stored price remains 5: the
price value 9 present in the import row is not written, because the
normalizer never reads a price column and the update arm never writes the
price field. -/
theorem c6_counterexample :
    (process_csv_upload ⟨[⟨1, "a1", "Old", some "z", some 5, false⟩], 2⟩
        ⟨["sku", "name", "price"], [["A1", "New", "9"]]⟩).1.rows =
      [⟨1, "a1", "New", some "", some 5, true⟩] ∧
    ((5 : ℚ) ≠ 9) :=
  ⟨by rfl, by decide⟩

/-- C7 (counterexample): a uniqueness violation raised during the first
attempt (modelled as an `IntegrityError`, which is not an
`OperationalError`) aborts `upsert_products_batch` at once with
`created = 0, updated = 0` and an unchanged table, even though the schedule
would let a retry succeed: the tuple is not re-resolved to the update path
(`updated = 0`, not 1). -/
theorem c7_counterexample :
    upsert_products_batch ⟨[⟨1, "a1", "Old", none, none, false⟩], 2⟩
        [⟨"A1", "New", ""⟩] [some ⟨0, DbError.integrity⟩, none, none] =
      (⟨[⟨1, "a1", "Old", none, none, false⟩], 2⟩, 0, 0) ∧
    (0 : Nat) ≠ 1 := by
  decide

/-- C7 (amended): a uniqueness violation on insert reaches only the generic
`except Exception` branch of `upsert_products_batch` — the batch is rolled
back and the call returns `created = 0, updated = 0` immediately, with no
retry (the rest of the failure schedule is never consulted) and no
re-resolution to the update path. -/
theorem c7_amended (db : Db) (batch : List Tuple) (j : Nat)
    (rest : List (Option AttemptFailure)) :
    upsert_products_batch db batch (some ⟨j, DbError.integrity⟩ :: rest) =
      (db, 0, 0) := rfl

/-- An update that succeeds rewrites exactly one row: the first one whose
case-folded SKU matches, replaced by its `applyUpd` image in place. -/
theorem updateFirst_spec (t : Tuple) :
    ∀ (rows rows' : List ProductRow), updateFirst rows t = some rows' →
    ∃ i r, rows[i]? = some r ∧ skuFold r.sku = skuFold t.sku ∧
      rows' = rows.set i (applyUpd r t) := by
  intro rows
  induction rows with
  | nil => intro rows' h; exact absurd h (by simp [updateFirst])
  | cons r rs ih =>
    intro rows' h
    by_cases hm : skuFold r.sku = skuFold t.sku
    · simp only [updateFirst, hm, if_pos, Option.some.injEq] at h
      exact ⟨0, r, by simp, hm, by simp [← h]⟩
    · simp only [updateFirst, hm, if_neg, if_false, Option.map_eq_some'] at h
      rcases h with ⟨rs', hrs', rfl⟩
      rcases ih rs' hrs' with ⟨i, r0, hget, hfold, hset⟩
      exact ⟨i + 1, r0, by simpa using hget, hfold, by simp [hset]⟩

/-- C6 (amended): when a normalized tuple matches an existing product
(case-insensitively), the batch upsert rewrites that product in place with
`applyUpd`: `name` and `description` are overwritten and `is_active` is
forced to `true`, while the stored `sku`, `id` and `price` keep their
previous values (and the id sequence does not advance).  The price present
in an import row is never written: normalized tuples carry no price
field. -/
theorem c6_amended (db : Db) (t : Tuple) (h : (upsertOne db t).2 = false) :
    (upsertOne db t).1.nextId = db.nextId ∧
    ∃ i r, db.rows[i]? = some r ∧ skuFold r.sku = skuFold t.sku ∧
      (upsertOne db t).1.rows = db.rows.set i (applyUpd r t) := by
  rcases hu : updateFirst db.rows t with _ | rows'
  · simp [upsertOne, hu] at h
  · refine ⟨by simp [upsertOne, hu], ?_⟩
    rcases updateFirst_spec t db.rows rows' hu with ⟨i, r, hget, hfold, hset⟩
    exact ⟨i, r, hget, hfold, by simp [upsertOne, hu, hset]⟩

/-- C6 witness: the tuple `a1,New,d` matches the stored product `A1` and
the theorem applies to it. -/
theorem c6_witness :
    (upsertOne ⟨[⟨1, "A1", "Old", some "o", some 5, false⟩], 2⟩
        ⟨"a1", "New", "d"⟩).2 = false ∧
    ((upsertOne ⟨[⟨1, "A1", "Old", some "o", some 5, false⟩], 2⟩
        ⟨"a1", "New", "d"⟩).1.nextId = 2 ∧
      ∃ i r,
        ([⟨1, "A1", "Old", some "o", some 5, false⟩] :
            List ProductRow)[i]? = some r ∧
        skuFold r.sku = skuFold (⟨"a1", "New", "d"⟩ : Tuple).sku ∧
        (upsertOne ⟨[⟨1, "A1", "Old", some "o", some 5, false⟩], 2⟩
            ⟨"a1", "New", "d"⟩).1.rows =
          ([⟨1, "A1", "Old", some "o", some 5, false⟩] :
              List ProductRow).set i
            (applyUpd r ⟨"a1", "New", "d"⟩) ) :=
  ⟨by decide, c6_amended ⟨[⟨1, "A1", "Old", some "o", some 5, false⟩], 2⟩
    ⟨"a1", "New", "d"⟩ (by decide)⟩

/-- Processing a concatenation of tuple lists is processing the first list
and continuing with its resulting table and counters. -/
theorem stepTuples_append (xs ys : List Tuple) : ∀ (db : Db) (c u : Nat),
    stepTuples db (xs ++ ys) c u =
      stepTuples (stepTuples db xs c u).1 ys
        (stepTuples db xs c u).2.1 (stepTuples db xs c u).2.2 := by
  induction xs with
  | nil => intro db c u; simp [stepTuples]
  | cons t xs ih =>
    intro db c u
    rcases h : upsertOne db t with ⟨db', b⟩
    cases b <;> simp only [List.cons_append, stepTuples, h] <;> exact ih db' _ _

/-- The resulting table of the batch loop does not depend on the initial
counter values. -/
theorem stepTuples_acc_fst (ts : List Tuple) : ∀ (db : Db) (c u : Nat),
    (stepTuples db ts c u).1 = (stepTuples db ts 0 0).1 := by
  induction ts with
  | nil => intro db c u; rfl
  | cons t ts ih =>
    intro db c u
    rcases h : upsertOne db t with ⟨db', b⟩
    cases b
    · simp only [stepTuples, h]
      rw [ih db' c (u + 1), ih db' 0 (0 + 1)]
    · simp only [stepTuples, h]
      rw [ih db' (c + 1) u, ih db' (0 + 1) 0]

/-- The created counter of the batch loop is a pure accumulator. -/
theorem stepTuples_acc_c (ts : List Tuple) : ∀ (db : Db) (c u : Nat),
    (stepTuples db ts c u).2.1 = c + (stepTuples db ts 0 0).2.1 := by
  induction ts with
  | nil => intro db c u; simp [stepTuples]
  | cons t ts ih =>
    intro db c u
    rcases h : upsertOne db t with ⟨db', b⟩
    cases b
    · simp only [stepTuples, h]
      rw [ih db' c (u + 1), ih db' 0 (0 + 1)]
      omega
    · simp only [stepTuples, h]
      rw [ih db' (c + 1) u, ih db' (0 + 1) 0]
      omega

/-- The updated counter of the batch loop is a pure accumulator. -/
theorem stepTuples_acc_u (ts : List Tuple) : ∀ (db : Db) (c u : Nat),
    (stepTuples db ts c u).2.2 = u + (stepTuples db ts 0 0).2.2 := by
  induction ts with
  | nil => intro db c u; simp [stepTuples]
  | cons t ts ih =>
    intro db c u
    rcases h : upsertOne db t with ⟨db', b⟩
    cases b
    · simp only [stepTuples, h]
      rw [ih db' c (u + 1), ih db' 0 (0 + 1)]
      omega
    · simp only [stepTuples, h]
      rw [ih db' (c + 1) u, ih db' (0 + 1) 0]
      omega

/-- When every record of the remaining input normalizes to a tuple, the row
loop is equivalent to one uninterrupted pass of the batch engine over the
pending batch followed by those tuples: the batching into chunks of 50 does
not affect the resulting table or the counts. -/
theorem importLoop_valid (headers : List String) :
    ∀ (rows : List (List String)) (ts : List Tuple) (db : Db)
      (p c u : Nat) (batch : List Tuple),
    validTuples headers rows = some ts →
    importLoop headers db rows p c u batch =
      ((stepTuples db (batch ++ ts) 0 0).1,
        some (p + batch.length + ts.length,
          c + (stepTuples db (batch ++ ts) 0 0).2.1,
          u + (stepTuples db (batch ++ ts) 0 0).2.2)) := by
  intro rows
  induction rows with
  | nil =>
    intro ts db p c u batch hv
    simp only [validTuples, Option.some.injEq] at hv
    subst hv
    by_cases hb : batch.isEmpty
    · have hbe : batch = [] := by simpa [List.isEmpty_iff] using hb
      subst hbe
      simp [importLoop, stepTuples]
    · simp [importLoop, hb, upsert_noFail]
  | cons cells rest ih =>
    intro ts db p c u batch hv
    rcases hn : normalizeRow headers cells with _ | _ | t
    · rw [validTuples, hn] at hv
      exact absurd hv (by simp)
    · rw [validTuples, hn] at hv
      exact absurd hv (by simp)
    · rw [validTuples, hn, Option.map_eq_some'] at hv
      rcases hv with ⟨ts', hts', rfl⟩
      simp only [importLoop, hn]
      by_cases hlen : (batch ++ [t]).length ≥ 50
      · simp only [hlen, if_pos]
        rw [upsert_noFail, ih ts' _ _ _ _ [] hts']
        rw [List.append_cons batch t ts', stepTuples_append (batch ++ [t]) ts']
        simp only [List.nil_append, List.length_nil, List.length_append,
          List.length_cons, Prod.mk.injEq, Option.some.injEq]
        refine ⟨?_, by omega, ?_, ?_⟩
        · rw [stepTuples_acc_fst ts' (stepTuples db (batch ++ [t]) 0 0).1
            (stepTuples db (batch ++ [t]) 0 0).2.1
            (stepTuples db (batch ++ [t]) 0 0).2.2]
        · rw [stepTuples_acc_c ts' (stepTuples db (batch ++ [t]) 0 0).1
            (stepTuples db (batch ++ [t]) 0 0).2.1
            (stepTuples db (batch ++ [t]) 0 0).2.2]
          omega
        · rw [stepTuples_acc_u ts' (stepTuples db (batch ++ [t]) 0 0).1
            (stepTuples db (batch ++ [t]) 0 0).2.1
            (stepTuples db (batch ++ [t]) 0 0).2.2]
          omega
      · simp only [hlen, if_neg, if_false]
        rw [ih ts' db p c u (batch ++ [t]) hts']
        rw [List.append_cons batch t ts']
        simp only [List.length_append, List.length_cons, List.length_nil,
          Prod.mk.injEq, Option.some.injEq, and_true, true_and]
        omega

/-- A run of `process_csv_upload` over a CSV whose records are all valid:
the terminal result is `Complete`, the total is the number of tuples, and
the table and counts are those of one uninterrupted pass of the batch
engine. -/
theorem process_valid (db : Db) (csv : Csv) (ts : List Tuple)
    (hv : validTuples csv.headers (dataRows csv) = some ts) :
    process_csv_upload db csv =
      ((stepTuples db ts 0 0).1,
        ⟨"Complete",
          importMsg ts.length (stepTuples db ts 0 0).2.1
            (stepTuples db ts 0 0).2.2,
          ts.length, (stepTuples db ts 0 0).2.1, (stepTuples db ts 0 0).2.2⟩,
        [Effect.webhook "product.imported"]) := by
  have h := importLoop_valid csv.headers (dataRows csv) ts db 0 0 0 [] hv
  simp only [List.nil_append, List.length_nil, Nat.zero_add, Nat.add_zero] at h
  simp [process_csv_upload, h, callTriggerWebhooks, trigger_webhooks_paramCount]

/-- Rewriting a row twice with the same tuple is the same as rewriting it
once. -/
theorem applyUpd_idem (r : ProductRow) (t : Tuple) :
    applyUpd (applyUpd r t) t = applyUpd r t := rfl

/-- A successful first-match update extends over an appended suffix. -/
theorem updateFirst_append_some (t : Tuple) :
    ∀ (rows rows' l : List ProductRow), updateFirst rows t = some rows' →
    updateFirst (rows ++ l) t = some (rows' ++ l) := by
  intro rows
  induction rows with
  | nil => intro rows' l h; exact absurd h (by simp [updateFirst])
  | cons r rs ih =>
    intro rows' l h
    by_cases hm : skuFold r.sku = skuFold t.sku
    · simp only [updateFirst, hm, if_pos, Option.some.injEq] at h
      subst h
      simp [updateFirst, hm]
    · simp only [updateFirst, hm, if_neg, if_false, Option.map_eq_some'] at h
      rcases h with ⟨rs', hrs', rfl⟩
      simp [List.cons_append, updateFirst, hm, ih rs' l hrs']

/-- A failed first-match update defers to the appended suffix. -/
theorem updateFirst_append_none (t : Tuple) :
    ∀ (rows l : List ProductRow), updateFirst rows t = none →
    updateFirst (rows ++ l) t = (updateFirst l t).map (rows ++ ·) := by
  intro rows
  induction rows with
  | nil =>
    intro l _
    cases h : updateFirst l t <;> simp [h]
  | cons r rs ih =>
    intro l h
    by_cases hm : skuFold r.sku = skuFold t.sku
    · simp [updateFirst, hm] at h
    · simp only [updateFirst, hm, if_neg, if_false, Option.map_eq_none'] at h
      have hstep : updateFirst ((r :: rs) ++ l) t =
          (updateFirst (rs ++ l) t).map (r :: ·) := by
        simp [List.cons_append, updateFirst, hm]
      rw [hstep, ih l h]
      cases h2 : updateFirst l t <;> simp [h2]

/-- Settledness through a non-matching head row. -/
theorem settled_cons_nomatch (t : Tuple) (r : ProductRow)
    (rs : List ProductRow) (hm : ¬ skuFold r.sku = skuFold t.sku) :
    Settled (r :: rs) t ↔ Settled rs t := by
  simp only [Settled, updateFirst, hm, if_neg, if_false]
  cases h : updateFirst rs t <;> simp [h]

/-- Settledness at a matching head row means the rewrite is a no-op
there. -/
theorem settled_cons_match (t : Tuple) (r : ProductRow)
    (rs : List ProductRow) (hm : skuFold r.sku = skuFold t.sku) :
    Settled (r :: rs) t ↔ applyUpd r t = r := by
  simp only [Settled, updateFirst, hm, if_pos, Option.some.injEq, List.cons.injEq]
  simp

/-- After a successful first-match update, the tuple is settled in the
result: re-updating rewrites the same row with the same values. -/
theorem settled_of_updateFirst (t : Tuple) :
    ∀ (rows rows' : List ProductRow), updateFirst rows t = some rows' →
    Settled rows' t := by
  intro rows
  induction rows with
  | nil => intro rows' h; exact absurd h (by simp [updateFirst])
  | cons r rs ih =>
    intro rows' h
    by_cases hm : skuFold r.sku = skuFold t.sku
    · simp only [updateFirst, hm, if_pos, Option.some.injEq] at h
      subst h
      have hm' : skuFold (applyUpd r t).sku = skuFold t.sku := hm
      exact (settled_cons_match t (applyUpd r t) rs hm').mpr (applyUpd_idem r t)
    · simp only [updateFirst, hm, if_neg, if_false, Option.map_eq_some'] at h
      rcases h with ⟨rs', hrs', rfl⟩
      have hm' : ¬ skuFold r.sku = skuFold t.sku := hm
      exact (settled_cons_nomatch t r rs' hm').mpr (ih rs' hrs')

/-- After an upsert of a tuple, that tuple is settled in the resulting
table (whether the upsert updated a row or inserted a fresh one). -/
theorem upsertOne_settled (db : Db) (t : Tuple) :
    Settled (upsertOne db t).1.rows t := by
  rcases hu : updateFirst db.rows t with _ | rows'
  · have h1 : updateFirst [newRow db.nextId t] t = some [newRow db.nextId t] := by
      simp [updateFirst, newRow, applyUpd]
    have h2 := updateFirst_append_none t db.rows [newRow db.nextId t] hu
    simp only [upsertOne, hu]
    simp [Settled, h2, h1]
  · simp only [upsertOne, hu]
    exact settled_of_updateFirst t db.rows rows' hu

/-- A settled tuple stays settled when a tuple with a different case-folded
SKU updates a row: the rewritten row cannot be the settled tuple's first
match. -/
theorem settled_preserved_update (t t2 : Tuple)
    (hne : skuFold t2.sku ≠ skuFold t.sku) :
    ∀ (rows rows1 : List ProductRow), Settled rows t →
    updateFirst rows t2 = some rows1 → Settled rows1 t := by
  intro rows
  induction rows with
  | nil => intro rows1 _ h; exact absurd h (by simp [updateFirst])
  | cons r rs ih =>
    intro rows1 hsettled h
    by_cases hm2 : skuFold r.sku = skuFold t2.sku
    · have hmt : ¬ skuFold r.sku = skuFold t.sku :=
        fun hh => hne (hm2.symm.trans hh)
      simp only [updateFirst, hm2, if_pos, Option.some.injEq] at h
      subst h
      have htail : Settled rs t := (settled_cons_nomatch t r rs hmt).mp hsettled
      have hmt' : ¬ skuFold (applyUpd r t2).sku = skuFold t.sku := hmt
      exact (settled_cons_nomatch t (applyUpd r t2) rs hmt').mpr htail
    · simp only [updateFirst, hm2, if_neg, if_false, Option.map_eq_some'] at h
      rcases h with ⟨rs1, hrs1, rfl⟩
      by_cases hmt : skuFold r.sku = skuFold t.sku
      · have happ : applyUpd r t = r := (settled_cons_match t r rs hmt).mp hsettled
        exact (settled_cons_match t r rs1 hmt).mpr happ
      · have htail : Settled rs t := (settled_cons_nomatch t r rs hmt).mp hsettled
        exact (settled_cons_nomatch t r rs1 hmt).mpr (ih rs1 htail hrs1)

/-- A settled tuple stays settled across an upsert of a tuple with a
different case-folded SKU. -/
theorem settled_preserved_upsert (db : Db) (t t2 : Tuple)
    (hne : skuFold t2.sku ≠ skuFold t.sku) (hs : Settled db.rows t) :
    Settled (upsertOne db t2).1.rows t := by
  rcases hu : updateFirst db.rows t2 with _ | rows1
  · simp only [upsertOne, hu]
    exact updateFirst_append_some t db.rows db.rows [newRow db.nextId t2] hs
  · simp only [upsertOne, hu]
    exact settled_preserved_update t t2 hne db.rows rows1 hs hu

/-- A settled tuple stays settled across a whole batch pass of tuples with
different case-folded SKUs. -/
theorem settled_preserved_stepTuples (t : Tuple) :
    ∀ (ts : List Tuple) (db : Db) (c u : Nat),
    (∀ t2 ∈ ts, skuFold t2.sku ≠ skuFold t.sku) → Settled db.rows t →
    Settled (stepTuples db ts c u).1.rows t := by
  intro ts
  induction ts with
  | nil => intro db c u _ hs; exact hs
  | cons t2 ts ih =>
    intro db c u hne hs
    rcases h : upsertOne db t2 with ⟨db', b⟩
    have hs' : Settled db'.rows t := by
      have hp := settled_preserved_upsert db t t2 (hne t2 (by simp)) hs
      rw [h] at hp
      exact hp
    cases b <;> simp only [stepTuples, h] <;>
      exact ih db' _ _ (fun x hx => hne x (by simp [hx])) hs'

/-- After one batch pass over tuples with pairwise-distinct case-folded
SKUs, every one of those tuples is settled in the resulting table. -/
theorem stepTuples_settledAll :
    ∀ (ts : List Tuple) (db : Db) (c u : Nat),
    (ts.map (fun t => skuFold t.sku)).Nodup →
    ∀ t ∈ ts, Settled (stepTuples db ts c u).1.rows t := by
  intro ts
  induction ts with
  | nil => intro db c u _ t ht; exact absurd ht (by simp)
  | cons t0 ts ih =>
    intro db c u hnd t ht
    rcases hup : upsertOne db t0 with ⟨db', b⟩
    simp only [List.map_cons, List.nodup_cons, List.mem_map] at hnd
    have hne : ∀ t2 ∈ ts, skuFold t2.sku ≠ skuFold t0.sku := by
      intro t2 h2 heq
      exact hnd.1 ⟨t2, h2, heq⟩
    rcases List.mem_cons.mp ht with rfl | hmem
    · have h0 : Settled db'.rows t := by
        have hp := upsertOne_settled db t
        rw [hup] at hp
        exact hp
      cases b <;> simp only [stepTuples, hup] <;>
        exact settled_preserved_stepTuples t ts db' _ _ hne h0
    · cases b <;> simp only [stepTuples, hup] <;>
        exact ih db' _ _ hnd.2 t hmem

/-- A batch pass over tuples all settled in the table changes nothing:
every tuple takes the update path with a no-op rewrite, so the table is
returned unchanged, nothing is created, and the updated counter advances by
the number of tuples. -/
theorem stepTuples_of_settled :
    ∀ (ts : List Tuple) (db : Db) (c u : Nat),
    (∀ t ∈ ts, Settled db.rows t) →
    stepTuples db ts c u = (db, c, u + ts.length) := by
  intro ts
  induction ts with
  | nil => intro db c u _; simp [stepTuples]
  | cons t ts ih =>
    intro db c u hall
    have hs : updateFirst db.rows t = some db.rows := hall t (by simp)
    have hup : upsertOne db t = (db, false) := by
      simp only [upsertOne, hs]
    simp only [stepTuples, hup]
    rw [ih db c (u + 1) (fun x hx => hall x (by simp [hx]))]
    simp only [Prod.mk.injEq, List.length_cons, true_and]
    omega

/-- C3: importing the same CSV of valid rows with pairwise-distinct
case-folded SKUs twice (no storage failures) yields on the second run
`created = 0` and `updated = N`, and the product table after the second run
is identical to the table after the first run (same rows, same id
sequence). -/
theorem c3_idempotent (db0 : Db) (csv : Csv) (ts : List Tuple)
    (h1 : validTuples csv.headers (dataRows csv) = some ts)
    (h2 : (ts.map (fun t => skuFold t.sku)).Nodup) :
    (process_csv_upload (process_csv_upload db0 csv).1 csv).2.1.created = 0 ∧
    (process_csv_upload (process_csv_upload db0 csv).1 csv).2.1.updated =
      ts.length ∧
    (process_csv_upload (process_csv_upload db0 csv).1 csv).1 =
      (process_csv_upload db0 csv).1 := by
  have hrun1 := process_valid db0 csv ts h1
  have hfst : (process_csv_upload db0 csv).1 = (stepTuples db0 ts 0 0).1 := by
    rw [hrun1]
  have hsettled : ∀ t ∈ ts, Settled (stepTuples db0 ts 0 0).1.rows t :=
    fun t ht => stepTuples_settledAll ts db0 0 0 h2 t ht
  have hstep2 := stepTuples_of_settled ts (stepTuples db0 ts 0 0).1 0 0 hsettled
  have hrun2 := process_valid (stepTuples db0 ts 0 0).1 csv ts h1
  rw [hfst, hrun2]
  simp [hstep2]

/-- C3 witness: a two-row CSV with distinct SKUs imported twice from an
empty table. -/
theorem c3_witness :
    validTuples ["sku", "name"]
      (dataRows ⟨["sku", "name"], [["a1", "x"], ["b2", "y"]]⟩) =
      some [⟨"a1", "x", ""⟩, ⟨"b2", "y", ""⟩] ∧
    (([⟨"a1", "x", ""⟩, ⟨"b2", "y", ""⟩] : List Tuple).map
      (fun t => skuFold t.sku)).Nodup ∧
    ((process_csv_upload
        (process_csv_upload ⟨[], 0⟩
          ⟨["sku", "name"], [["a1", "x"], ["b2", "y"]]⟩).1
        ⟨["sku", "name"], [["a1", "x"], ["b2", "y"]]⟩).2.1.created = 0 ∧
      (process_csv_upload
        (process_csv_upload ⟨[], 0⟩
          ⟨["sku", "name"], [["a1", "x"], ["b2", "y"]]⟩).1
        ⟨["sku", "name"], [["a1", "x"], ["b2", "y"]]⟩).2.1.updated =
        ([⟨"a1", "x", ""⟩, ⟨"b2", "y", ""⟩] : List Tuple).length ∧
      (process_csv_upload
        (process_csv_upload ⟨[], 0⟩
          ⟨["sku", "name"], [["a1", "x"], ["b2", "y"]]⟩).1
        ⟨["sku", "name"], [["a1", "x"], ["b2", "y"]]⟩).1 =
        (process_csv_upload ⟨[], 0⟩
          ⟨["sku", "name"], [["a1", "x"], ["b2", "y"]]⟩).1) :=
  ⟨by decide, by decide,
    c3_idempotent ⟨[], 0⟩ ⟨["sku", "name"], [["a1", "x"], ["b2", "y"]]⟩
      [⟨"a1", "x", ""⟩, ⟨"b2", "y", ""⟩] (by decide) (by decide)⟩

/-- C8: in the route table of `main.py`, `DELETE /api/products/{product_id}`
is declared at index 7, before `DELETE /api/products/bulk-delete` at
index 8, and Starlette matches `{product_id}` against any segment, so a
DELETE for `/api/products/bulk-delete` is routed to `delete_product`; the
`int` validation of `product_id` then rejects it with 422 and no product is
deleted — the request never reaches `bulk_delete_products`. -/
theorem c8_route_shadowing :
    matchRoute "DELETE" ["api", "products", "bulk-delete"] =
      some "delete_product" ∧
    routeTable[7]? =
      some ⟨"DELETE", [.lit "api", .lit "products", Seg.param], "delete_product"⟩ ∧
    routeTable[8]? =
      some ⟨"DELETE", [.lit "api", .lit "products", .lit "bulk-delete"],
        "bulk_delete_products"⟩ ∧
    dispatchDelete ⟨[⟨1, "a1", "x", none, none, true⟩], 2⟩
        ["api", "products", "bulk-delete"] =
      (⟨[⟨1, "a1", "x", none, none, true⟩], 2⟩,
        .httpError 422 "Unprocessable Entity", []) := by
  decide

/-- C9: the product CRUD handlers commit and then raise.  `trigger_webhooks`
declares two positional parameters, but `create_product`, `update_product`
and `delete_product` each call it with three arguments after their
`db.commit()`: the write persists in the table while the handler raises the
`TypeError` to the framework, so the caller receives an error for a
mutation that happened.  (For update, the case shown is an unchanged
case-folded SKU, which bypasses the duplicate check.) -/
theorem c9_commit_then_raise :
    (∀ (db : Db) (p : ProductIn), findBySku db.rows p.sku = none →
      (create_product db p).1.rows =
          db.rows ++ [⟨db.nextId, p.sku, p.name, p.description, p.price,
            p.is_active⟩] ∧
        (create_product db p).2.1 = .exn (arityMsg 3)) ∧
    (∀ (db : Db) (pid : Nat) (p : ProductIn) (r : ProductRow),
      db.rows.find? (fun r0 => r0.id == pid) = some r →
      skuFold p.sku = skuFold r.sku →
      (update_product db pid p).1.rows =
          db.rows.map (fun r2 => if r2.id = pid then applyCrudUpdate r p
            else r2) ∧
        (update_product db pid p).2.1 = .exn (arityMsg 3)) ∧
    (∀ (db : Db) (pid : Nat) (r : ProductRow),
      db.rows.find? (fun r0 => r0.id == pid) = some r →
      (delete_product db pid).1.rows =
          db.rows.filter (fun r2 => r2.id != pid) ∧
        (delete_product db pid).2.1 = .exn (arityMsg 3)) := by
  refine ⟨?_, ?_, ?_⟩
  · intro db p h
    simp [create_product, h, callTriggerWebhooks, trigger_webhooks_paramCount]
  · intro db pid p r hfind hsku
    have hcond : (skuFold p.sku != skuFold r.sku) = false := by
      simp [hsku]
    simp [update_product, hfind, hcond, callTriggerWebhooks,
      trigger_webhooks_paramCount]
  · intro db pid r hfind
    simp [delete_product, hfind, callTriggerWebhooks,
      trigger_webhooks_paramCount]

/-- C9 witness: a create on an empty table, and an update and a delete of
the stored product with id 1. -/
theorem c9_witness :
    ((create_product ⟨[], 0⟩ ⟨"a1", "n", none, none, true⟩).1.rows =
        [] ++ [⟨0, "a1", "n", none, none, true⟩] ∧
      (create_product ⟨[], 0⟩ ⟨"a1", "n", none, none, true⟩).2.1 =
        .exn (arityMsg 3)) ∧
    ((update_product ⟨[⟨1, "a1", "n", none, none, true⟩], 2⟩ 1
        ⟨"a1", "m", none, none, false⟩).1.rows =
        ([⟨1, "a1", "n", none, none, true⟩] : List ProductRow).map
          (fun r2 => if r2.id = 1 then
            applyCrudUpdate ⟨1, "a1", "n", none, none, true⟩
              ⟨"a1", "m", none, none, false⟩ else r2) ∧
      (update_product ⟨[⟨1, "a1", "n", none, none, true⟩], 2⟩ 1
        ⟨"a1", "m", none, none, false⟩).2.1 = .exn (arityMsg 3)) ∧
    ((delete_product ⟨[⟨1, "a1", "n", none, none, true⟩], 2⟩ 1).1.rows =
        ([⟨1, "a1", "n", none, none, true⟩] : List ProductRow).filter
          (fun r2 => r2.id != 1) ∧
      (delete_product ⟨[⟨1, "a1", "n", none, none, true⟩], 2⟩ 1).2.1 =
        .exn (arityMsg 3)) :=
  ⟨c9_commit_then_raise.1 ⟨[], 0⟩ ⟨"a1", "n", none, none, true⟩ (by decide),
    c9_commit_then_raise.2.1 ⟨[⟨1, "a1", "n", none, none, true⟩], 2⟩ 1
      ⟨"a1", "m", none, none, false⟩ ⟨1, "a1", "n", none, none, true⟩
      (by decide) (by decide),
    c9_commit_then_raise.2.2 ⟨[⟨1, "a1", "n", none, none, true⟩], 2⟩ 1
      ⟨1, "a1", "n", none, none, true⟩ (by decide)⟩

/-- C10: `bulk_delete_products` empties the table, reports the number of
rows that existed before the wipe, and dispatches no webhook; and no
modelled operation of the program — the importer, the three CRUD handlers,
the bulk delete, or the webhook test trigger (the only places the source
touches webhook delivery) — ever emits a `product.bulk_deleted` event, so
subscribers to that event type are never notified. -/
theorem c10_bulk_delete_no_event :
    (∀ db : Db, bulk_delete_products db =
      (⟨[], db.nextId⟩, .okMsg (bulkMsg db.rows.length), [])) ∧
    (∀ (db : Db) (csv : Csv),
      Effect.webhook "product.bulk_deleted" ∉ (process_csv_upload db csv).2.2) ∧
    (∀ (db : Db) (p : ProductIn),
      Effect.webhook "product.bulk_deleted" ∉ (create_product db p).2.2) ∧
    (∀ (db : Db) (pid : Nat) (p : ProductIn),
      Effect.webhook "product.bulk_deleted" ∉ (update_product db pid p).2.2) ∧
    (∀ (db : Db) (pid : Nat),
      Effect.webhook "product.bulk_deleted" ∉ (delete_product db pid).2.2) ∧
    (∀ (db : Db) (b : Bool),
      Effect.webhook "product.bulk_deleted" ∉ (test_webhook db b).2.2) := by
  refine ⟨fun db => rfl, ?_, ?_, ?_, ?_, ?_⟩
  · intro db csv
    rcases process_effects_cases db csv with h | h <;> simp [h]
  · intro db p
    rcases h : findBySku db.rows p.sku with _ | r <;>
      simp [create_product, h, callTriggerWebhooks, trigger_webhooks_paramCount]
  · intro db pid p
    rcases h : db.rows.find? (fun r => r.id == pid) with _ | r
    · simp [update_product, h]
    · by_cases hc : (skuFold p.sku != skuFold r.sku &&
          (db.rows.find? (fun r2 => skuFold r2.sku == skuFold p.sku &&
            r2.id != pid)).isSome) = true
      · simp [update_product, h, hc]
      · simp [update_product, h, hc, callTriggerWebhooks,
          trigger_webhooks_paramCount]
  · intro db pid
    rcases h : db.rows.find? (fun r => r.id == pid) with _ | r <;>
      simp [delete_product, h, callTriggerWebhooks, trigger_webhooks_paramCount]
  · intro db b
    cases b <;> simp [test_webhook]

end ProductImporter
